import Mathlib

/-!
Verification of the outline-generator pipeline in src/app.py
(class HuggingFaceOutlineGenerator plus the export code in main).

The Python values flowing through the pipeline (JSON-decoded objects,
template dictionaries) are embedded as the inductive type PyVal below;
Python operations that can raise (subscripting, the in operator,
iteration) are embedded as Except-valued functions, so that an
exception propagating out of a Python function is an Except.error.
Strings are modelled with ASCII case semantics (str.lower / str.title
restricted to A-Z), which covers every string literal in the source.
-/

/-- Embedded Python value: the values that arise in app.py are strings,
integers, booleans, None, lists and string-keyed dicts (insertion order
kept, as in Python 3.7+). -/
inductive PyVal where
  | str : String → PyVal
  | int : Int → PyVal
  | bool : Bool → PyVal
  | none : PyVal
  | list : List PyVal → PyVal
  | dict : List (String × PyVal) → PyVal

/-- The character with the given code point (used for the brace characters). -/
def charOf (n : Nat) : Char := Char.ofNat n

def lbrace : Char := charOf 123

def rbrace : Char := charOf 125

/-- Boolean prefix test on character lists. -/
def listPrefix : List Char → List Char → Bool
  | [], _ => true
  | _ :: _, [] => false
  | a :: as, b :: bs => a == b && listPrefix as bs

/-- Boolean contiguous-substring test on character lists (Python in on strings). -/
def listInfix (pat : List Char) : List Char → Bool
  | [] => listPrefix pat []
  | c :: rest => listPrefix pat (c :: rest) || listInfix pat rest

/-- Lookup in an embedded dict: first binding wins (bindings built by
dictSet below are unique, as in a Python dict). -/
def dictLookup (k : String) : List (String × PyVal) → Option PyVal
  | [] => Option.none
  | kv :: rest => if k = kv.1 then Option.some kv.2 else dictLookup k rest

/-- Assignment d[k] = v on an embedded dict: overwrite in place if the key
exists, otherwise append (Python dict insertion-order semantics). -/
def dictSet (k : String) (v : PyVal) : List (String × PyVal) → List (String × PyVal)
  | [] => [(k, v)]
  | kv :: rest => if k = kv.1 then (k, v) :: rest else kv :: dictSet k v rest

/-- Python subscript value[key] with a string key: dict lookup (KeyError if
missing), TypeError on every other value. -/
def pySubscript (v : PyVal) (key : String) : Except String PyVal :=
  match v with
  | .dict kvs =>
    match dictLookup key kvs with
    | Option.some w => .ok w
    | Option.none => .error ("KeyError: " ++ key)
  | .str _ => .error "TypeError: string indices must be integers"
  | .list _ => .error "TypeError: list indices must be integers"
  | .int _ => .error "TypeError: int is not subscriptable"
  | .bool _ => .error "TypeError: bool is not subscriptable"
  | .none => .error "TypeError: NoneType is not subscriptable"

/-- Python key in value for a string key: key containment for dicts,
membership for lists, substring test for strings, TypeError otherwise. -/
def pyInOp (key : String) (v : PyVal) : Except String Bool :=
  match v with
  | .dict kvs => .ok (kvs.any fun kv => kv.1 == key)
  | .list xs => .ok (xs.any fun x => match x with | .str s => s == key | _ => false)
  | .str s => .ok (listInfix key.data s.data)
  | .int _ => .error "TypeError: argument of type int is not iterable"
  | .bool _ => .error "TypeError: argument of type bool is not iterable"
  | .none => .error "TypeError: argument of type NoneType is not iterable"

/-- Python iteration over a value: list elements, characters of a string
(as one-character strings), keys of a dict; TypeError otherwise. -/
def pyIter (v : PyVal) : Except String (List PyVal) :=
  match v with
  | .list xs => .ok xs
  | .str s => .ok (s.data.map fun c => .str (String.singleton c))
  | .dict kvs => .ok (kvs.map fun kv => .str kv.1)
  | .int _ => .error "TypeError: int object is not iterable"
  | .bool _ => .error "TypeError: bool object is not iterable"
  | .none => .error "TypeError: NoneType object is not iterable"

/-- Python v == n for an integer n (never raises; True compares equal
to 1 and False to 0, and values of other types compare unequal). -/
def pyEqInt (v : PyVal) (n : Int) : Bool :=
  match v with
  | .int m => m == n
  | .bool b => (if b then (1 : Int) else 0) == n
  | _ => false

mutual

/-- Python str(v), as interpolated by the f-strings in app.py. -/
def pyStrOf : PyVal → String
  | .str s => s
  | .int n => toString n
  | .bool b => if b then "True" else "False"
  | .none => "None"
  | .list xs => "[" ++ pyReprList xs ++ "]"
  | .dict kvs => String.singleton lbrace ++ pyReprDict kvs ++ String.singleton rbrace

/-- Python repr(v) (element rendering inside containers). -/
def pyReprOf : PyVal → String
  | .str s => "\x27" ++ s ++ "\x27"
  | .int n => toString n
  | .bool b => if b then "True" else "False"
  | .none => "None"
  | .list xs => "[" ++ pyReprList xs ++ "]"
  | .dict kvs => String.singleton lbrace ++ pyReprDict kvs ++ String.singleton rbrace

def pyReprList : List PyVal → String
  | [] => ""
  | [x] => pyReprOf x
  | x :: y :: rest => pyReprOf x ++ ", " ++ pyReprList (y :: rest)

def pyReprDict : List (String × PyVal) → String
  | [] => ""
  | [kv] => "\x27" ++ kv.1 ++ "\x27: " ++ pyReprOf kv.2
  | kv :: kv2 :: rest => "\x27" ++ kv.1 ++ "\x27: " ++ pyReprOf kv.2 ++ ", " ++ pyReprDict (kv2 :: rest)

end

/-! ## ASCII string helpers mirroring the Python string methods used -/

/-- Model of Python str.lower on one character (ASCII range). -/
def pyLowerChar (c : Char) : Char :=
  if 65 ≤ c.toNat ∧ c.toNat ≤ 90 then charOf (c.toNat + 32) else c

def pyLower (cs : List Char) : List Char := cs.map pyLowerChar

def pyLowerStr (s : String) : String := String.mk (pyLower s.data)

/-- Model of Python str.upper on one character (ASCII range). -/
def pyUpperChar (c : Char) : Char :=
  if 97 ≤ c.toNat ∧ c.toNat ≤ 122 then charOf (c.toNat - 32) else c

/-- ASCII letter (the cased characters of the ASCII model). -/
def isAsciiAlpha (c : Char) : Bool :=
  (65 ≤ c.toNat && c.toNat ≤ 90) || (97 ≤ c.toNat && c.toNat ≤ 122)

/-- Model of Python str.title: a cased character is uppercased when the
previous character is not cased, lowercased otherwise. -/
def pyTitleAux : Bool → List Char → List Char
  | _, [] => []
  | prevCased, c :: rest =>
    if isAsciiAlpha c then
      (if prevCased then pyLowerChar c else pyUpperChar c) :: pyTitleAux true rest
    else
      c :: pyTitleAux false rest

def pyTitle (cs : List Char) : List Char := pyTitleAux false cs

def pyTitleStr (s : String) : String := String.mk (pyTitle s.data)

/-- The characters of the Python regex class backslash-s (and of
str.strip with no argument, restricted to ASCII). -/
def pyIsSpace (c : Char) : Bool :=
  c = ' ' || c = charOf 9 || c = charOf 10 || c = charOf 13 || c = charOf 11 || c = charOf 12

/-- Model of Python s.replace(pat, empty string) for a nonempty pat:
every nonoverlapping occurrence of pat is deleted, scanning left to right. -/
def pyReplaceEmpty (pat : List Char) : List Char → List Char
  | [] => []
  | c :: rest =>
    if pat.isPrefixOf (c :: rest) && !pat.isEmpty then
      pyReplaceEmpty pat (rest.drop (pat.length - 1))
    else
      c :: pyReplaceEmpty pat rest
termination_by cs => cs.length
decreasing_by
  · simp only [List.length_drop, List.length_cons]; omega
  · simp [List.length_cons]

/-- Strip every character of set from both ends (Python str.strip(set)). -/
def pyStripSet (set : List Char) (cs : List Char) : List Char :=
  ((cs.dropWhile fun c => set.contains c).reverse.dropWhile fun c => set.contains c).reverse

/-- Python str.strip() with no argument: strip whitespace from both ends. -/
def pyStripWs (cs : List Char) : List Char :=
  ((cs.dropWhile pyIsSpace).reverse.dropWhile pyIsSpace).reverse

/-! ## detect_article_type (app.py lines 109-120)

The three regular expressions are searches for alternated literal
phrases delimited by word boundaries; the second also allows an
optional digits-then-whitespace token before the keyword.  They are
embedded as an explicit scan over every starting position. -/

/-- Python regex word character (ASCII): letter, digit or underscore. -/
def isWordChar (c : Char) : Bool :=
  isAsciiAlpha c || c.isDigit || c = '_'

/-- Word boundary before the current position, given the previous character. -/
def boundaryBefore : Option Char → Bool
  | Option.none => true
  | Option.some c => !isWordChar c

/-- Word boundary at the position following a matched phrase. -/
def boundaryAfterOk : List Char → Bool
  | [] => true
  | c :: _ => !isWordChar c

/-- The phrase matches at the head of cs, with a word boundary after it. -/
def phraseAt (p : List Char) (cs : List Char) : Bool :=
  listPrefix p cs && boundaryAfterOk (cs.drop p.length)

/-- Search for any of the phrases as a whole word anywhere in cs: the
embedding of re.search over a word-bounded alternation of literals. -/
def searchPhrases (phrases : List (List Char)) : Option Char → List Char → Bool
  | prev, [] => boundaryBefore prev && phrases.any fun p => phraseAt p []
  | prev, c :: rest =>
    (boundaryBefore prev && phrases.any fun p => phraseAt p (c :: rest))
    || searchPhrases phrases (Option.some c) rest

/-- The optional digits-then-whitespace token of the listicle pattern:
consume one-or-more digits then one-or-more whitespace characters.
Both runs are forced maximal because the keywords that follow start
with a letter. -/
def digitSpacePrefix (cs : List Char) : Option (List Char) :=
  let ds := cs.takeWhile Char.isDigit
  if ds.isEmpty then Option.none
  else
    let rest := cs.drop ds.length
    let ss := rest.takeWhile pyIsSpace
    if ss.isEmpty then Option.none else Option.some (rest.drop ss.length)

def listiclePhrases : List (List Char) :=
  ["best".data, "top".data, "vs".data, "versus".data, "comparison".data]

/-- The listicle pattern matches at the head of cs (keyword directly, or
after the optional digit token). -/
def listicleAt (cs : List Char) : Bool :=
  (listiclePhrases.any fun p => phraseAt p cs)
  || (match digitSpacePrefix cs with
      | Option.some rest => listiclePhrases.any fun p => phraseAt p rest
      | Option.none => false)

def searchListicle : Option Char → List Char → Bool
  | prev, [] => boundaryBefore prev && listicleAt []
  | prev, c :: rest =>
    (boundaryBefore prev && listicleAt (c :: rest)) || searchListicle (Option.some c) rest

def howToPhrases : List (List Char) :=
  ["how to".data, "guide".data, "tutorial".data, "step by step".data]

def explanatoryPhrases : List (List Char) :=
  ["what is".data, "introduction to".data, "understanding".data, "explain".data]

/-- detect_article_type: ordered first-match-wins classification of the
lower-cased topic. -/
def detect_article_type (topic : String) : String :=
  let tl := pyLower topic.data
  if searchPhrases howToPhrases Option.none tl then "how_to"
  else if searchListicle Option.none tl then "listicle"
  else if searchPhrases explanatoryPhrases Option.none tl then "explanatory"
  else "general"


/-! ## Outline constructors shared by the template generator and the
format theorems: a section dict, a CTA dict, a full outline dict, in
the exact key order the Python code builds them. -/

def mkSection (h2 : String) (bullets : List String) : PyVal :=
  .dict [("h2", .str h2), ("bullets", .list (bullets.map .str))]

def mkCta (c : Int × String) : PyVal :=
  .dict [("after", .int c.1), ("text", .str c.2)]

def mkOutline (h1 : String) (sections : List (String × List String))
    (ctas : List (Int × String)) : PyVal :=
  .dict [("h1", .str h1),
         ("sections", .list (sections.map fun s => mkSection s.1 s.2)),
         ("ctas", .list (ctas.map mkCta))]

/-- A template dict as first built in _generate_template_based: only the
h1 and sections keys (the ctas key is assigned afterwards). -/
def mkTemplate (h1 : String) (sections : List (String × List String)) : PyVal :=
  .dict [("h1", .str h1), ("sections", .list (sections.map fun s => mkSection s.1 s.2))]

/-! ## _generate_template_based (app.py lines 312-478) -/

def howToSections : List (String × List String) :=
  [("Getting Started: Prerequisites and Preparation",
    ["Understanding the basic requirements and tools needed",
     "Setting up your environment for success",
     "Common mistakes to avoid before starting"]),
   ("Step-by-Step Implementation Process",
    ["Following the proven methodology step by step",
     "Best practices and expert tips for each phase",
     "Troubleshooting common issues as you progress"]),
   ("Advanced Techniques and Optimization",
    ["Taking your results to the next level",
     "Professional strategies used by experts",
     "Measuring and improving your outcomes"]),
   ("Maintaining Long-Term Success",
    ["Ongoing maintenance and continuous improvement",
     "Scaling your approach as you grow",
     "Resources for continued learning and support"])]

def listicleSections : List (String × List String) :=
  [("Selection Criteria: What Makes the Best Choice",
    ["Key factors to consider when evaluating options",
     "Understanding your specific needs and priorities",
     "Quality indicators and red flags to watch for"]),
   ("Top-Rated Options: Detailed Comparison",
    ["In-depth analysis of leading choices",
     "Pros and cons of each option",
     "Real-world performance and user experiences"]),
   ("Value Analysis: Finding the Best Deal",
    ["Price comparison and value for money assessment",
     "Hidden costs and long-term investment considerations",
     "Best options for different budgets"]),
   ("Making Your Decision: Final Recommendations",
    ["Best overall choice for most users",
     "Alternative recommendations for specific use cases",
     "Where to buy and what to watch out for"])]

def explanatorySections : List (String × List String) :=
  [("The Fundamentals: Core Concepts Explained",
    ["Breaking down the basic principles in simple terms",
     "Key terminology and definitions you need to know",
     "Historical context and why it matters today"]),
   ("How It Works: The Mechanics Behind the Concept",
    ["Step-by-step explanation of the process",
     "Real-world examples that illustrate the concept",
     "Common misconceptions and clarifications"]),
   ("Practical Applications and Use Cases",
    ["Where and when this concept applies in real life",
     "Benefits and advantages of understanding it",
     "Common scenarios where this knowledge is useful"]),
   ("Going Deeper: Advanced Insights",
    ["More complex aspects for those ready to learn more",
     "Related concepts and further areas of study",
     "Resources for continued learning and exploration"])]

def generalSections (topic : String) : List (String × List String) :=
  [("Introduction and Overview",
    ["Understanding the basics of " ++ topic,
     "Why this topic is relevant and important",
     "What you\x27ll learn in this comprehensive guide"]),
   ("Key Components and Elements",
    ["Breaking down the main aspects and features",
     "How different elements work together",
     "Critical factors that influence outcomes"]),
   ("Practical Implementation and Best Practices",
    ["Proven strategies and approaches that work",
     "Common pitfalls and how to avoid them",
     "Expert tips for optimal results"]),
   ("Looking Forward: Trends and Future Outlook",
    ["Emerging trends and developments to watch",
     "Preparing for future changes and opportunities",
     "Next steps and continued resources"])]

def howToH1 (topic : String) : String :=
  "How to " ++ pyTitleStr (String.mk (pyStripWs (pyReplaceEmpty "how to".data topic.data)))
    ++ ": Complete Step-by-Step Guide"

def listicleH1 (topic : String) : String :=
  "Top Picks for " ++ pyTitleStr topic ++ ": Expert Comparison and Review"

def explanatoryH1 (topic : String) : String :=
  "Understanding " ++ pyTitleStr topic ++ ": A Comprehensive Explanation"

def generalH1 (topic : String) : String :=
  pyTitleStr topic ++ ": Essential Information and Insights"

/-- The templates dict literal of _generate_template_based. -/
def templatesDict (topic : String) : List (String × PyVal) :=
  [("how_to", mkTemplate (howToH1 topic) howToSections),
   ("listicle", mkTemplate (listicleH1 topic) listicleSections),
   ("explanatory", mkTemplate (explanatoryH1 topic) explanatorySections),
   ("general", mkTemplate (generalH1 topic) (generalSections topic))]

/-- The three CTA entries assigned to template[ctas]. -/
def templateCtas (topic : String) : List (Int × String) :=
  [(0, "Want to master " ++ topic ++ "? Continue reading for expert insights."),
   (1, "Ready to take action? Apply these proven strategies today."),
   (3, "Start implementing these tips now to see real results!")]

/-- Read the h1 string of a template dict (always present and a string
for the dicts of templatesDict). -/
def h1String (tpl : PyVal) : String :=
  match tpl with
  | .dict kvs =>
    match dictLookup "h1" kvs with
    | Option.some (.str s) => s
    | _ => ""
  | _ => ""

/-- template[h1].split(colon)[0]: the part before the first colon. -/
def beforeColon (s : String) : String :=
  String.mk (s.data.takeWhile fun c => !(c == ':'))

/-- Assignment template[key] = v on a template dict. -/
def pyDictSet (tpl : PyVal) (k : String) (v : PyVal) : PyVal :=
  match tpl with
  | .dict kvs => .dict (dictSet k v kvs)
  | _ => tpl

/-- _generate_template_based: select the fragment set for the detected
type, splice the keyword into the h1 when one was given, attach the
fixed CTA list. -/
def _generate_template_based (topic : String) (keyword : String := "") : PyVal :=
  let article_type := detect_article_type topic
  let template :=
    (dictLookup article_type (templatesDict topic)).getD
      (mkTemplate (generalH1 topic) (generalSections topic))
  let template :=
    if keyword.isEmpty then template
    else pyDictSet template "h1"
      (.str (beforeColon (h1String template) ++ ": " ++ pyTitleStr keyword ++ " Edition"))
  pyDictSet template "ctas" (.list ((templateCtas topic).map mkCta))

/-! ## _validate_outline (app.py lines 248-263) -/

/-- The section loop of _validate_outline: each section must contain h2
and bullets, and bullets must be a list of length at least 2.  The in
tests and the subscript can raise for ill-typed sections, exactly as in
Python. -/
def validateSections : List PyVal → Except String Bool
  | [] => .ok true
  | s :: rest => do
    let h2In ← pyInOp "h2" s
    if !h2In then return false
    let bulletsIn ← pyInOp "bullets" s
    if !bulletsIn then return false
    let bulletsV ← pySubscript s "bullets"
    match bulletsV with
    | .list bs =>
      if bs.length < 2 then return false
      else validateSections rest
    | _ => return false

/-- _validate_outline: requires the h1, sections and ctas keys, a
sections list of length at least 3, and valid sections. -/
def _validate_outline (outline : PyVal) : Except String Bool := do
  let h1In ← pyInOp "h1" outline
  let sectionsIn ← pyInOp "sections" outline
  let ctasIn ← pyInOp "ctas" outline
  if !(h1In && sectionsIn && ctasIn) then return false
  let sectionsV ← pySubscript outline "sections"
  match sectionsV with
  | .list sections =>
    if sections.length < 3 then return false
    else validateSections sections
  | _ => return false


/-! ## format_outline_text (app.py lines 480-494) -/

/-- The generator expression next((c for c in ctas if c[after] == idx), None):
scan the CTA list lazily, returning the first element whose after entry
compares equal to idx; subscripting a malformed element raises. -/
def formatFindCta : List PyVal → Int → Except String (Option PyVal)
  | [], _ => .ok Option.none
  | c :: rest, idx => do
    let a ← pySubscript c "after"
    if pyEqInt a idx then return (Option.some c) else formatFindCta rest idx

/-- The body of the section loop of format_outline_text, carrying the
whole outline because ctas is re-read from it on every iteration. -/
def formatSections (outline : PyVal) : Int → List PyVal → Except String String
  | _, [] => .ok ""
  | idx, s :: rest => do
    let h2 ← pySubscript s "h2"
    let bulletsV ← pySubscript s "bullets"
    let bullets ← pyIter bulletsV
    let bulletText := String.join (bullets.map fun b => "• " ++ pyStrOf b ++ "\n")
    let ctasV ← pySubscript outline "ctas"
    let ctaList ← pyIter ctasV
    let cta ← formatFindCta ctaList idx
    let ctaText ← match cta with
      | Option.some c => do
        let t ← pySubscript c "text"
        pure ("💡 **Call to Action:** " ++ pyStrOf t ++ "\n\n")
      | Option.none => pure ""
    let restText ← formatSections outline (idx + 1) rest
    return ("## " ++ pyStrOf h2 ++ "\n\n" ++ bulletText ++ "\n" ++ ctaText ++ restText)

/-- format_outline_text: heading line, then each section with its
bullets and the first CTA whose after index equals the section index. -/
def format_outline_text (outline : PyVal) : Except String String := do
  let h1 ← pySubscript outline "h1"
  let sectionsV ← pySubscript outline "sections"
  let sections ← pyIter sectionsV
  let body ← formatSections outline 0 sections
  return ("# " ++ pyStrOf h1 ++ "\n\n" ++ body)

/-! ## Reference rendering of a well-formed outline

For outlines of the shape mkOutline h1 sections ctas, the formatter is
proved below to produce exactly this rendering: sections in order, each
followed by its bullets then by the first CTA in list order whose index
matches, and nothing else. -/

/-- First CTA in list order whose anchor index equals idx. -/
def findFirstCta : List (Int × String) → Int → Option (Int × String)
  | [], _ => Option.none
  | c :: rest, idx => if c.1 = idx then Option.some c else findFirstCta rest idx

def bulletsBlock (bs : List String) : String :=
  String.join (bs.map fun b => "• " ++ b ++ "\n")

def ctaBlock : Option (Int × String) → String
  | Option.some c => "💡 **Call to Action:** " ++ c.2 ++ "\n\n"
  | Option.none => ""

def renderSections (ctas : List (Int × String)) : Int → List (String × List String) → String
  | _, [] => ""
  | idx, s :: rest =>
    "## " ++ s.1 ++ "\n\n" ++ bulletsBlock s.2 ++ "\n"
      ++ ctaBlock (findFirstCta ctas idx) ++ renderSections ctas (idx + 1) rest

def renderSpec (h1 : String) (sections : List (String × List String))
    (ctas : List (Int × String)) : String :=
  "# " ++ h1 ++ "\n\n" ++ renderSections ctas 0 sections


/-! ## _create_structured_outline_from_text (app.py lines 265-310) -/

/-- Split on every newline, keeping empty pieces (Python text.split with
a newline separator). -/
def splitNl : List Char → List (List Char)
  | [] => [[]]
  | c :: rest =>
    match splitNl rest with
    | [] => [[]]
    | l :: ls => if c = charOf 10 then [] :: l :: ls else (c :: l) :: ls

/-- The preprocessed lines: each raw line stripped, empty results dropped. -/
def linesOf (text : String) : List (List Char) :=
  ((splitNl text.data).map pyStripWs).filter fun l => !l.isEmpty

def markerStrings : List (List Char) :=
  ["section".data, "step".data, "##".data, "h2:".data, "**".data]

/-- A line opens a new section when its lower-cased form contains one of
the markers. -/
def isMarkerLine (line : List Char) : Bool :=
  markerStrings.any fun m => listInfix m (pyLower line)

def headerStripChars : List Char := "#*: ".data

def bulletStripChars : List Char := "•-*: ".data

/-- The line loop of _create_structured_outline_from_text: builds the
list of scraped (h2, bullets) pairs.  cur is the current section (header
plus bullets gathered so far); a section is kept only once it has at
least one bullet. -/
def scrapeLoop : List (List Char) → Option (List Char × List (List Char)) →
    List (List Char × List (List Char)) → List (List Char × List (List Char))
  | [], cur, acc =>
    (match cur with
     | Option.some (h2, bs) => if bs.length > 0 then acc ++ [(h2, bs)] else acc
     | Option.none => acc)
  | line :: rest, cur, acc =>
    if isMarkerLine line then
      let acc2 :=
        match cur with
        | Option.some (h2, bs) => if bs.length > 0 then acc ++ [(h2, bs)] else acc
        | Option.none => acc
      scrapeLoop rest (Option.some (pyStripSet headerStripChars line, [])) acc2
    else
      match cur with
      | Option.some (h2, bs) =>
        if !line.isEmpty
            && !(match line with | c :: _ => c = lbrace | [] => false)
            && !(match line with | c :: _ => c = rbrace | [] => false) then
          let clean := pyStripSet bulletStripChars line
          if clean.length > 10 then scrapeLoop rest (Option.some (h2, bs ++ [clean])) acc
          else scrapeLoop rest (Option.some (h2, bs)) acc
        else scrapeLoop rest (Option.some (h2, bs)) acc
      | Option.none => scrapeLoop rest Option.none acc

/-- The sections scraped from a raw response text. -/
def scrapeSections (text : String) : List (List Char × List (List Char)) :=
  scrapeLoop (linesOf text) Option.none []

/-- Bullet padding: while a section has fewer than 3 bullets, append
Additional details about h2.lower(). -/
def padBullets (h2 : List Char) (bs : List (List Char)) : List (List Char) :=
  bs ++ List.replicate (3 - bs.length) ("Additional details about ".data ++ pyLower h2)

/-- _create_structured_outline_from_text: scrape sections from the
lines; with fewer than 3, fall back to the template generator; else pad
every section to 3 bullets, keep the first 4 sections, and attach the
fixed CTA list. -/
def _create_structured_outline_from_text (text topic keyword : String) : PyVal :=
  let sections := scrapeSections text
  if sections.length < 3 then _generate_template_based topic keyword
  else
    let h1 :=
      if keyword.isEmpty then "Complete Guide to " ++ pyTitleStr topic
      else pyTitleStr topic ++ ": " ++ pyTitleStr keyword
    let padded := sections.map fun s => (s.1, padBullets s.1 s.2)
    let kept := padded.take 4
    let sectionVals := kept.map fun s =>
      mkSection (String.mk s.1) (s.2.map String.mk)
    let ctas : List (Int × String) :=
      [(0, "Ready to get started? Learn more about implementing these strategies."),
       (1, "Want expert guidance? Check out our comprehensive resources."),
       ((kept.length : Int) - 1, "Start applying these tips today for best results!")]
    .dict [("h1", .str h1),
           ("sections", .list sectionVals),
           ("ctas", .list (ctas.map mkCta))]

/-! ## _parse_response (app.py lines 229-246)

The regex that locates the JSON blob matches from the first opening
brace to the last closing brace (leftmost start, greedy extent). -/

/-- The prefix of cs that ends at the last closing brace, if any. -/
def upToLastRBrace : List Char → Option (List Char)
  | [] => Option.none
  | c :: rest =>
    match upToLastRBrace rest with
    | Option.some body => Option.some (c :: body)
    | Option.none => if c = rbrace then Option.some [c] else Option.none

/-- The embedding of re.search for the brace-to-brace pattern: the match
starts at the first opening brace and extends greedily to the last
closing brace of the whole text. -/
def extractBraces : List Char → Option (List Char)
  | [] => Option.none
  | c :: rest =>
    if c = lbrace then
      match upToLastRBrace rest with
      | Option.some body => Option.some (c :: body)
      | Option.none => extractBraces rest
    else extractBraces rest

/-! ### Model of json.loads

json.loads is library code external to the repository; it is modelled
here as a recursive-descent parser for the JSON fragment the pipeline
can meet: objects, arrays, double-quoted strings with the single-character
escapes, integers, true, false, null, with arbitrary whitespace.  Object
keys met twice overwrite (Python dict construction order).  Inputs
outside this fragment (for instance fractional numbers) make the model
return no result where Python might succeed; every theorem below takes
the decoded object as a hypothesis, so this only narrows the inputs the
theorems speak about. -/

def jsonWs (c : Char) : Bool :=
  c = ' ' || c = charOf 9 || c = charOf 10 || c = charOf 13

def skipWs (cs : List Char) : List Char := cs.dropWhile jsonWs

def jsonEscape (c : Char) : Option Char :=
  if c = '"' then Option.some '"'
  else if c = charOf 92 then Option.some (charOf 92)
  else if c = '/' then Option.some '/'
  else if c = 'n' then Option.some (charOf 10)
  else if c = 't' then Option.some (charOf 9)
  else if c = 'r' then Option.some (charOf 13)
  else if c = 'b' then Option.some (charOf 8)
  else if c = 'f' then Option.some (charOf 12)
  else Option.none

/-- Parse the remainder of a JSON string literal (the opening quote
already consumed). -/
def jsonString : List Char → Option (List Char × List Char)
  | [] => Option.none
  | c :: rest =>
    if c = '"' then Option.some ([], rest)
    else if c = charOf 92 then
      match rest with
      | [] => Option.none
      | e :: rest2 =>
        match jsonEscape e, jsonString rest2 with
        | Option.some d, Option.some (s, rem) => Option.some (d :: s, rem)
        | _, _ => Option.none
    else
      match jsonString rest with
      | Option.some (s, rem) => Option.some (c :: s, rem)
      | Option.none => Option.none

def digitsToNat : List Char → Nat
  | [] => 0
  | ds => ds.foldl (fun acc d => acc * 10 + (d.toNat - 48)) 0

mutual

def jsonValue : Nat → List Char → Option (PyVal × List Char)
  | 0, _ => Option.none
  | _ + 1, [] => Option.none
  | fuel + 1, c :: rest =>
    if c = lbrace then jsonObject fuel (skipWs rest) []
    else if c = '[' then jsonArray fuel (skipWs rest)
    else if c = '"' then
      match jsonString rest with
      | Option.some (s, rem) => Option.some (.str (String.mk s), rem)
      | Option.none => Option.none
    else if c = '-' then
      match rest.takeWhile Char.isDigit with
      | [] => Option.none
      | ds => Option.some (.int (-(digitsToNat ds : Int)), rest.drop ds.length)
    else if c.isDigit then
      let ds := (c :: rest).takeWhile Char.isDigit
      Option.some (.int (digitsToNat ds : Int), (c :: rest).drop ds.length)
    else if listPrefix "true".data (c :: rest) then
      Option.some (.bool true, (c :: rest).drop 4)
    else if listPrefix "false".data (c :: rest) then
      Option.some (.bool false, (c :: rest).drop 5)
    else if listPrefix "null".data (c :: rest) then
      Option.some (.none, (c :: rest).drop 4)
    else Option.none

/-- Parse the inside of an object, after the opening brace and leading
whitespace; acc holds the bindings parsed so far. -/
def jsonObject (fuel : Nat) (cs : List Char) (acc : List (String × PyVal)) :
    Option (PyVal × List Char) :=
  match fuel, cs with
  | 0, _ => Option.none
  | _ + 1, [] => Option.none
  | fuel + 1, c :: rest =>
    if c = rbrace then
      if acc.isEmpty then Option.some (.dict [], rest) else Option.none
    else if c = '"' then
      match jsonString rest with
      | Option.some (k, rem) =>
        match skipWs rem with
        | colon :: rem2 =>
          if colon = ':' then
            match jsonValue fuel (skipWs rem2) with
            | Option.some (v, rem3) =>
              let acc2 := dictSet (String.mk k) v acc
              match skipWs rem3 with
              | comma :: rem4 =>
                if comma = ',' then jsonObject fuel (skipWs rem4) acc2
                else if comma = rbrace then Option.some (.dict acc2, rem4)
                else Option.none
              | [] => Option.none
            | Option.none => Option.none
          else Option.none
        | [] => Option.none
      | Option.none => Option.none
    else Option.none

def jsonArray (fuel : Nat) (cs : List Char) : Option (PyVal × List Char) :=
  match fuel, cs with
  | 0, _ => Option.none
  | _ + 1, [] => Option.none
  | fuel + 1, c :: rest =>
    if c = ']' then Option.some (.list [], rest)
    else
      match jsonValue fuel (c :: rest) with
      | Option.some (v, rem) => jsonArrayTail fuel (skipWs rem) [v]
      | Option.none => Option.none

/-- After one array element: expect a comma and a further element, or
the closing bracket. -/
def jsonArrayTail (fuel : Nat) (cs : List Char) (acc : List PyVal) :
    Option (PyVal × List Char) :=
  match fuel, cs with
  | 0, _ => Option.none
  | _ + 1, [] => Option.none
  | fuel + 1, c :: rest =>
    if c = ']' then Option.some (.list acc, rest)
    else if c = ',' then
      match jsonValue fuel (skipWs rest) with
      | Option.some (v, rem) => jsonArrayTail fuel (skipWs rem) (acc ++ [v])
      | Option.none => Option.none
    else Option.none

end

/-- Model of json.loads: parse one value, demand only whitespace after it. -/
def json_loads (s : String) : Option PyVal :=
  match jsonValue (s.data.length + 1) (skipWs s.data) with
  | Option.some (v, rem) => if (skipWs rem).isEmpty then Option.some v else Option.none
  | Option.none => Option.none

/-- _parse_response: extract the brace-to-brace blob, decode it, accept
it when the validator passes; otherwise (no blob, decode error, or
validator false) build the structured outline from the raw text.  A
validator exception that is not a decode error propagates. -/
def _parse_response (response_text topic keyword : String) : Except String PyVal :=
  match extractBraces response_text.data with
  | Option.some jcs =>
    match json_loads (String.mk jcs) with
    | Option.some outline =>
      match _validate_outline outline with
      | .ok true => .ok outline
      | .ok false => .ok (_create_structured_outline_from_text response_text topic keyword)
      | .error e => .error e
    | Option.none => .ok (_create_structured_outline_from_text response_text topic keyword)
  | Option.none => .ok (_create_structured_outline_from_text response_text topic keyword)

/-! ## generate_outline (app.py lines 180-227), initialize_client
(lines 33-44) and _find_working_model (lines 46-106)

The external inference client is abstracted by a behaviour: the outcome
of the n-th text_generation call in generate_outline and the outcome of
each connectivity probe in _find_working_model.  An outcome is either
the returned raw text or the str() of the raised exception.  The st.*
message calls appearing in the body of generate_outline are modelled as
an ordered signal list; the prompt built by create_prompt only feeds the
abstracted remote call, so its text plays no role in the model. -/

inductive RemoteOutcome where
  | success : String → RemoteOutcome
  | failure : String → RemoteOutcome

/-- A st.error / st.warning / st.info call made by generate_outline. -/
inductive Signal where
  | error : String → Signal
  | warning : String → Signal
  | info : String → Signal
deriving DecidableEq

/-- The generator state and the behaviour of the external collaborators:
whether self.client is still None, the api token (None when absent),
whether a working model was already found, the outcome of each
generation attempt, and the outcome of each model probe.  The
model_name attribute is display-only in the source (it never influences
a branch) and is not tracked. -/
structure GenState where
  client_is_none : Bool
  api_token : Option String
  working_model_found : Bool
  remote : Nat → RemoteOutcome
  model_tests : Nat → RemoteOutcome

/-- Python truthiness of the token attribute (None and the empty string
are falsy). -/
def tokenTruthy : Option String → Bool
  | Option.none => false
  | Option.some s => !s.isEmpty

def MODELS : List String :=
  ["google/flan-t5-base", "google/flan-t5-large",
   "tiiuae/falcon-7b-instruct", "HuggingFaceH4/zephyr-7b-beta"]

def containsSub (s pat : String) : Bool := listInfix pat.data s.data

/-- The probe loop of _find_working_model: stop successfully at the
first working model; skip 404 / not-found and generic failures; raise
ValueError on an authentication failure. -/
def findWorkingModelLoop : List RemoteOutcome → Except String Bool
  | [] => .ok false
  | outcome :: rest =>
    match outcome with
    | .success _ => .ok true
    | .failure e =>
      let msg := pyLowerStr e
      if containsSub msg "404" || containsSub msg "not found" then
        findWorkingModelLoop rest
      else if containsSub msg "401" || containsSub msg "unauthorized"
          || containsSub msg "invalid token" then
        .error "Invalid token - please get a new HF token"
      else findWorkingModelLoop rest

/-- _find_working_model: returns the updated state, or the ValueError it
raises on an authentication failure. -/
def _find_working_model (st : GenState) : Except String GenState :=
  if st.working_model_found then .ok st
  else
    match findWorkingModelLoop ((List.range MODELS.length).map st.model_tests) with
    | .ok true => .ok { st with working_model_found := true }
    | .ok false => .ok st
    | .error e => .error e

/-- initialize_client: ValueError when no token is present, else create
the client and probe for a working model (exceptions re-raised). -/
def initialize_client (st : GenState) : Except String GenState :=
  if !tokenTruthy st.api_token then
    .error "Hugging Face token required. Get it from https://huggingface.co/settings/tokens"
  else _find_working_model { st with client_is_none := false }

/-- The value of a generation request: the returned outline (or the
exception generate_outline itself raises), the signals shown, and how
many remote generation calls were made. -/
structure GenResult where
  result : Except String PyVal
  signals : List Signal
  remote_calls : Nat

/-- Python str(e)[:200]. -/
def strTake (s : String) (n : Nat) : String := String.mk (s.data.take n)

/-- The retry loop of generate_outline (max_retries = 2).  A successful
remote call whose parse raises lands in the same except branch as a
failed remote call, with the parse exception classified by its message,
exactly as in the source. -/
def generate_attempts (st : GenState) (topic keyword : String) :
    Nat → List Signal → Nat → GenResult
  | attempt, sigs, calls =>
    if _h : 2 ≤ attempt then
      ⟨.ok (_generate_template_based topic keyword), sigs, calls⟩
    else
      let parseRes : Except String PyVal :=
        match st.remote attempt with
        | .success text => _parse_response text topic keyword
        | .failure e => .error e
      match parseRes with
      | .ok outline => ⟨.ok outline, sigs, calls + 1⟩
      | .error e =>
        let msg := pyLowerStr e
        if containsSub msg "rate limit" || containsSub msg "429" then
          if attempt < 1 then
            generate_attempts st topic keyword (attempt + 1)
              (sigs ++ [.warning ("⏳ Rate limit hit, retrying in 5 seconds... (Attempt "
                ++ toString (attempt + 1) ++ "/2)")])
              (calls + 1)
          else
            ⟨.ok (_generate_template_based topic keyword),
             sigs ++ [.error "⏳ Rate limit reached. Using template fallback."], calls + 1⟩
        else if containsSub msg "token" || containsSub msg "401"
            || containsSub msg "unauthorized" then
          ⟨.ok (_generate_template_based topic keyword),
           sigs ++ [.error "🔑 Invalid or expired token. Please check your Hugging Face token.",
                    .info "Get a new token at: https://huggingface.co/settings/tokens"],
           calls + 1⟩
        else if containsSub msg "404" || containsSub msg "not found" then
          ⟨.ok (_generate_template_based topic keyword),
           sigs ++ [.error "❌ Model temporarily unavailable. Using template fallback."],
           calls + 1⟩
        else
          ⟨.ok (_generate_template_based topic keyword),
           sigs ++ [.warning ("⚠️ " ++ strTake e 200)], calls + 1⟩
termination_by attempt => 2 - attempt
decreasing_by omega

/-- generate_outline: initialize the client when it is still None
(exceptions propagate), fall back to the template immediately when no
working model was found, else run the retry loop. -/
def generate_outline (st : GenState) (topic : String) (keyword : String := "") : GenResult :=
  match (if st.client_is_none then initialize_client st else .ok st) with
  | .error e => ⟨.error e, [], 0⟩
  | .ok st2 =>
    if !st2.working_model_found then
      ⟨.ok (_generate_template_based topic keyword),
       [.info "📋 Using template-based generation (AI models unavailable)"], 0⟩
    else generate_attempts st2 topic keyword 0 [] 0

/-- The try/except around the generate_outline call in main (app.py
lines 640-659): any exception is caught and a template outline is
produced instead. -/
def main_generate (st : GenState) (topic keyword : String) : PyVal :=
  match (generate_outline st topic keyword).result with
  | .ok o => o
  | .error _ => _generate_template_based topic keyword

/-! ## The export in main (app.py lines 670-677) -/

/-- One slug character: keep lowercase ASCII letters and digits, replace
everything else by a hyphen (the regex character class of the source). -/
def slugChar (c : Char) : Char :=
  if (97 ≤ c.toNat && c.toNat ≤ 122) || (48 ≤ c.toNat && c.toNat ≤ 57) then c else '-'

/-- The file name main passes to the download button:
re.sub applied to topic.lower()[:50], then the -outline.txt suffix. -/
def export_file_name (topic : String) : String :=
  String.mk (((pyLower topic.data).take 50).map slugChar) ++ "-outline.txt"

/-- The data main passes to the download button: the formatted outline. -/
def export_file_data (outline : PyVal) : Except String String :=
  format_outline_text outline

/-- The slug described by the spec: lowercase the topic, replace every
character outside the lowercase-letter / digit class by a hyphen, then
truncate to 50 characters (replacement before truncation). -/
def slug_spec (topic : String) : String :=
  String.mk (((pyLower topic.data).map slugChar).take 50)

/-! ## Concrete values used by the theorems below -/

/-- An outline whose ctas value is not a list: the validator only tests
that the ctas key is present. -/
def badCtasOutline : PyVal :=
  .dict [("h1", .str "T"),
         ("sections", .list [mkSection "A" ["a1", "a2"], mkSection "B" ["b1", "b2"],
                             mkSection "C" ["c1", "c2"]]),
         ("ctas", .int 0)]

def c4text : String :=
  "\x7b\"h1\": \"T\", \"sections\": [\x7b\"h2\": \"A\", \"bullets\": [\"x\", \"y\"]\x7d, \x7b\"h2\": \"B\", \"bullets\": [\"x\", \"y\"]\x7d], \"ctas\": []\x7d"

def c4kvs : List (String × PyVal) :=
  [("h1", .str "T"),
   ("sections", .list [.dict [("h2", .str "A"), ("bullets", .list [.str "x", .str "y"])],
                       .dict [("h2", .str "B"), ("bullets", .list [.str "x", .str "y"])]]),
   ("ctas", .list [])]

/-- The 2-section blob of c4text followed by three scrapeable section
lines: a raw response on which the pipeline's fallback is the text
scraper, not the template generator. -/
def c4ctext : String :=
  c4text ++ "\n## Section Alpha One\nThis bullet line is long enough here\n## Section Beta Two\nAnother bullet line long enough here\n## Section Gamma Three\nThird bullet line long enough here"

/-- Projection: the h2 string of the first section of an outline dict. -/
def firstSectionH2 (o : PyVal) : String :=
  match pySubscript o "sections" with
  | .ok (.list (s :: _)) =>
    (match pySubscript s "h2" with
     | .ok (.str h) => h
     | _ => "")
  | _ => ""

/-- A raw remote response whose embedded blob is a structurally invalid
JSON object and whose surrounding lines carry three scrapeable sections. -/
def c2text : String :=
  "\x7b\"h1\": \"X\"\x7d\n## Section Alpha One\nThis bullet line is long enough here\n## Section Beta Two\nAnother bullet line long enough here\n## Section Gamma Three\nThird bullet line long enough here"

def c2wtext : String := "\x7b\x7d unrelated"

def c5state : GenState :=
  { client_is_none := false, api_token := Option.some "hf_x", working_model_found := true,
    remote := fun _ => .failure "401 Unauthorized", model_tests := fun _ => .failure "" }

def c7state : GenState :=
  { client_is_none := true, api_token := Option.none, working_model_found := false,
    remote := fun _ => .failure "", model_tests := fun _ => .failure "" }

/-! ## Helper lemmas -/

theorem detect_article_type_cases (topic : String) :
    detect_article_type topic = "how_to" ∨ detect_article_type topic = "listicle"
    ∨ detect_article_type topic = "explanatory" ∨ detect_article_type topic = "general" := by
  unfold detect_article_type
  dsimp only
  split_ifs <;> simp

/-- Every run of the template generator is an outline of the mkOutline
shape: some h1, a four-section fragment set with three bullets per
section, and the fixed CTA list. -/
theorem template_shape (topic keyword : String) :
    ∃ h1 secs, _generate_template_based topic keyword = mkOutline h1 secs (templateCtas topic)
      ∧ secs.length = 4 ∧ ∀ s ∈ secs, s.2.length = 3 := by
  rcases detect_article_type_cases topic with h | h | h | h <;>
    cases hk : keyword.isEmpty
  all_goals {
    first
    | exact ⟨_, howToSections, by simp [_generate_template_based, h, hk, templatesDict,
        dictLookup, pyDictSet, dictSet, mkTemplate, mkOutline, h1String]; rfl, by decide⟩
    | exact ⟨_, listicleSections, by simp [_generate_template_based, h, hk, templatesDict,
        dictLookup, pyDictSet, dictSet, mkTemplate, mkOutline, h1String]; rfl, by decide⟩
    | exact ⟨_, explanatorySections, by simp [_generate_template_based, h, hk, templatesDict,
        dictLookup, pyDictSet, dictSet, mkTemplate, mkOutline, h1String]; rfl, by decide⟩
    | exact ⟨_, generalSections topic, by simp [_generate_template_based, h, hk, templatesDict,
        dictLookup, pyDictSet, dictSet, mkTemplate, mkOutline, h1String]; rfl,
        by constructor; rfl; intro s hs; fin_cases hs <;> rfl⟩
  }

theorem exceptBind_ok {α β : Type} (a : α) (f : α → Except String β) :
    (Except.ok a : Except String α) >>= f = f a := rfl

theorem validateSections_mk (secs : List (String × List String))
    (hb : ∀ s ∈ secs, 2 ≤ s.2.length) :
    validateSections (secs.map fun s => mkSection s.1 s.2) = .ok true := by
  induction secs with
  | nil => rfl
  | cons s rest ih =>
    have h2 : 2 ≤ s.2.length := hb s (by simp)
    have hrest : ∀ t ∈ rest, 2 ≤ t.2.length := fun t ht => hb t (by simp [ht])
    simp only [List.map_cons, validateSections, mkSection, pyInOp, pySubscript, dictLookup,
      exceptBind_ok]
    show (if (List.map PyVal.str s.2).length < 2 then (pure false : Except String Bool)
      else validateSections (List.map (fun s => mkSection s.1 s.2) rest)) = Except.ok true
    rw [if_neg (by simp only [List.length_map]; omega)]
    exact ih hrest

theorem validate_mkOutline (h1 : String) (secs : List (String × List String))
    (ctas : List (Int × String)) (h3 : 3 ≤ secs.length)
    (hb : ∀ s ∈ secs, 2 ≤ s.2.length) :
    _validate_outline (mkOutline h1 secs ctas) = .ok true := by
  have hlt : ¬((secs.map fun s => mkSection s.1 s.2).length < 3) := by
    simp only [List.length_map]; omega
  simp only [_validate_outline, mkOutline, pyInOp, pySubscript, dictLookup, exceptBind_ok]
  simp [exceptBind_ok, hlt, validateSections_mk secs hb]
  intro hcon
  exfalso
  omega

theorem mkOutline_sections (h1 : String) (secs : List (String × List String))
    (ctas : List (Int × String)) :
    pySubscript (mkOutline h1 secs ctas) "sections"
      = .ok (.list (secs.map fun s => mkSection s.1 s.2)) := rfl

theorem mkOutline_h1 (h1 : String) (secs : List (String × List String))
    (ctas : List (Int × String)) :
    pySubscript (mkOutline h1 secs ctas) "h1" = .ok (.str h1) := rfl

theorem mkOutline_ctas (h1 : String) (secs : List (String × List String))
    (ctas : List (Int × String)) :
    pySubscript (mkOutline h1 secs ctas) "ctas" = .ok (.list (ctas.map mkCta)) := rfl

/-- C1.  For every topic and keyword (the empty keyword included), the
outline built by _generate_template_based passes _validate_outline; its
h1, sections and ctas keys are present, its sections list has exactly 4
entries (hence at least 3), and every section carries an h2 string and
a bullets list of exactly 3 entries (hence at least 2). -/
theorem template_based_passes_validator (topic keyword : String) :
    _validate_outline (_generate_template_based topic keyword) = .ok true
    ∧ ∃ ss, pySubscript (_generate_template_based topic keyword) "sections" = .ok (.list ss)
        ∧ ss.length = 4
        ∧ ∀ s ∈ ss, ∃ h2 bs, pySubscript s "h2" = .ok (.str h2)
            ∧ pySubscript s "bullets" = .ok (.list bs) ∧ bs.length = 3 := by
  obtain ⟨h1, secs, heq, hlen, hb⟩ := template_shape topic keyword
  rw [heq]
  refine ⟨validate_mkOutline _ _ _ (by omega) (fun s hs => by have := hb s hs; omega), ?_⟩
  refine ⟨secs.map fun s => mkSection s.1 s.2, mkOutline_sections _ _ _, by simp [hlen], ?_⟩
  intro s hs
  simp only [List.mem_map] at hs
  obtain ⟨t, ht, rfl⟩ := hs
  exact ⟨t.1, t.2.map PyVal.str, rfl, rfl, by simp [hb t ht]⟩

theorem exceptPure {α : Type} (a : α) : (pure a : Except String α) = Except.ok a := rfl

theorem formatFindCta_mk (ctas : List (Int × String)) (idx : Int) :
    formatFindCta (ctas.map mkCta) idx = .ok ((findFirstCta ctas idx).map mkCta) := by
  induction ctas with
  | nil => rfl
  | cons c rest ih =>
    by_cases h : c.1 = idx
    · simp [formatFindCta, mkCta, pySubscript, dictLookup, exceptBind_ok, findFirstCta,
        pyEqInt, exceptPure, h]
    · simp [formatFindCta, mkCta, pySubscript, dictLookup, exceptBind_ok, findFirstCta,
        pyEqInt, exceptPure, h, ih]

theorem map_bullets (bs : List String) :
    List.map (fun b => "• " ++ pyStrOf b ++ "\n") (List.map PyVal.str bs)
      = List.map (fun b => "• " ++ b ++ "\n") bs := by
  induction bs with
  | nil => rfl
  | cons b rest ih => simp [ih, pyStrOf]

theorem formatSections_mk (o : PyVal) (ctas : List (Int × String))
    (hc : pySubscript o "ctas" = .ok (.list (ctas.map mkCta)))
    (secs : List (String × List String)) (idx : Int) :
    formatSections o idx (secs.map fun s => mkSection s.1 s.2)
      = .ok (renderSections ctas idx secs) := by
  induction secs generalizing idx with
  | nil => rfl
  | cons s rest ih =>
    cases hf : findFirstCta ctas idx with
    | none =>
      simp only [List.map_cons, formatSections, exceptBind_ok,
        show pySubscript (mkSection s.1 s.2) "h2" = Except.ok (PyVal.str s.1) from rfl,
        show pySubscript (mkSection s.1 s.2) "bullets"
          = Except.ok (PyVal.list (s.2.map PyVal.str)) from rfl,
        show pyIter (PyVal.list (s.2.map PyVal.str)) = Except.ok (s.2.map PyVal.str) from rfl,
        hc,
        show pyIter (PyVal.list (ctas.map mkCta)) = Except.ok (ctas.map mkCta) from rfl,
        formatFindCta_mk, hf, exceptPure, ih (idx + 1), map_bullets]
      simp [renderSections, hf, bulletsBlock, ctaBlock, pyStrOf]
    | some c =>
      simp only [List.map_cons, formatSections, exceptBind_ok,
        show pySubscript (mkSection s.1 s.2) "h2" = Except.ok (PyVal.str s.1) from rfl,
        show pySubscript (mkSection s.1 s.2) "bullets"
          = Except.ok (PyVal.list (s.2.map PyVal.str)) from rfl,
        show pyIter (PyVal.list (s.2.map PyVal.str)) = Except.ok (s.2.map PyVal.str) from rfl,
        hc,
        show pyIter (PyVal.list (ctas.map mkCta)) = Except.ok (ctas.map mkCta) from rfl,
        formatFindCta_mk, hf, exceptPure, ih (idx + 1), map_bullets,
        show pySubscript (mkCta c) "text" = Except.ok (PyVal.str c.2) from rfl]
      simp [renderSections, hf, bulletsBlock, ctaBlock, pyStrOf,
        show pySubscript (mkCta c) "text" = Except.ok (PyVal.str c.2) from rfl,
        exceptBind_ok, exceptPure]

/-- For every well-shaped outline, format_outline_text succeeds and
produces exactly the reference rendering. -/
theorem format_mkOutline (h1 : String) (secs : List (String × List String))
    (ctas : List (Int × String)) :
    format_outline_text (mkOutline h1 secs ctas) = .ok (renderSpec h1 secs ctas) := by
  have hs := formatSections_mk (mkOutline h1 secs ctas) ctas (mkOutline_ctas h1 secs ctas) secs 0
  simp only [mkOutline] at hs
  simp [format_outline_text, mkOutline_h1, mkOutline_sections, exceptBind_ok, exceptPure,
    pyIter, hs, renderSpec, pyStrOf, mkOutline, pySubscript, dictLookup]

theorem findFirstCta_none (ctas : List (Int × String)) (idx : Int)
    (h : ∀ c ∈ ctas, c.1 ≠ idx) : findFirstCta ctas idx = Option.none := by
  induction ctas with
  | nil => rfl
  | cons c rest ih =>
    have hc := h c (List.mem_cons_self c rest)
    simp only [findFirstCta, if_neg hc]
    exact ih fun d hd => h d (List.mem_cons_of_mem c hd)

theorem renderSections_out_of_range (ctas : List (Int × String))
    (secs : List (String × List String)) :
    ∀ idx : Int, (∀ c ∈ ctas, c.1 < idx ∨ idx + secs.length ≤ c.1) →
      renderSections ctas idx secs = renderSections [] idx secs := by
  induction secs with
  | nil => intro idx _; rfl
  | cons s rest ih =>
    intro idx h
    have hnone : findFirstCta ctas idx = Option.none := by
      apply findFirstCta_none
      intro c hc
      rcases h c hc with hlt | hge
      · omega
      · simp only [List.length_cons] at hge
        omega
    have hrest : ∀ c ∈ ctas, c.1 < idx + 1 ∨ (idx + 1) + rest.length ≤ c.1 := by
      intro c hc
      rcases h c hc with hlt | hge
      · omega
      · simp only [List.length_cons] at hge
        omega
    simp only [renderSections, hnone, findFirstCta, ih (idx + 1) hrest]

/-- C6.  On a well-shaped outline, format_outline_text renders exactly
the reference rendering (sections top-to-bottom, each section followed
by the first CTA in list order whose after index matches, so at most one
CTA per section); a CTA whose index matches no section is never chosen;
whenever the first CTA with index 1 is c and at least three sections
exist, c appears immediately after the second section's bullets and
before the third section's subheading; and CTAs none of whose indices
match a section index are never rendered (the output equals the output
with no CTAs at all). -/
theorem format_cta_placement (h1 : String) (sections : List (String × List String))
    (ctas : List (Int × String)) :
    format_outline_text (mkOutline h1 sections ctas) = .ok (renderSpec h1 sections ctas)
    ∧ (∀ idx, (∀ c ∈ ctas, c.1 ≠ idx) → findFirstCta ctas idx = Option.none)
    ∧ (∀ s0 s1 s2 srest c, sections = s0 :: s1 :: s2 :: srest →
        findFirstCta ctas 1 = Option.some c →
        ∃ pre post, format_outline_text (mkOutline h1 sections ctas)
          = .ok (pre ++ ("## " ++ s1.1 ++ "\n\n" ++ bulletsBlock s1.2 ++ "\n")
              ++ ("💡 **Call to Action:** " ++ c.2 ++ "\n\n")
              ++ ("## " ++ s2.1) ++ post))
    ∧ ((∀ c ∈ ctas, c.1 < 0 ∨ (sections.length : Int) ≤ c.1) →
        format_outline_text (mkOutline h1 sections ctas)
          = .ok (renderSpec h1 sections [])) := by
  refine ⟨format_mkOutline h1 sections ctas, fun idx h => findFirstCta_none ctas idx h, ?_, ?_⟩
  case refine_2 =>
    intro hout
    rw [format_mkOutline]
    have hrange : ∀ c ∈ ctas, c.1 < 0 ∨ (0 : Int) + sections.length ≤ c.1 := by
      intro c hc
      rcases hout c hc with h | h
      · exact Or.inl h
      · right
        omega
    simp [renderSpec, renderSections_out_of_range ctas sections 0 hrange]
  intro s0 s1 s2 srest c hsec hcta
  subst hsec
  refine ⟨"# " ++ h1 ++ "\n\n"
      ++ ("## " ++ s0.1 ++ "\n\n" ++ bulletsBlock s0.2 ++ "\n" ++ ctaBlock (findFirstCta ctas 0)),
    "\n\n" ++ bulletsBlock s2.2 ++ "\n" ++ ctaBlock (findFirstCta ctas 2)
      ++ renderSections ctas 3 srest, ?_⟩
  rw [format_mkOutline]
  simp [renderSpec, renderSections, ctaBlock, hcta, String.append_assoc]

/-- Witness for C6 at concrete outlines: a CTA list whose only entry
anchors after the second section, an index (5) matching no CTA, and a
CTA list whose only index (9) matches no section. -/
theorem format_cta_placement_witness :
    (∀ c ∈ [((1 : Int), "Go")], c.1 ≠ (5 : Int))
    ∧ findFirstCta [((1 : Int), "Go")] 5 = Option.none
    ∧ (findFirstCta [((1 : Int), "Go")] 1 = Option.some (1, "Go"))
    ∧ (∃ pre post,
        format_outline_text
            (mkOutline "T" [("A", ["a1"]), ("B", ["b1"]), ("C", ["c1"])] [(1, "Go")])
          = .ok (pre ++ ("## " ++ "B" ++ "\n\n" ++ bulletsBlock ["b1"] ++ "\n")
              ++ ("💡 **Call to Action:** " ++ "Go" ++ "\n\n") ++ ("## " ++ "C") ++ post))
    ∧ (∀ c ∈ [((9 : Int), "X")], c.1 < 0 ∨ ((2 : Nat) : Int) ≤ c.1)
    ∧ format_outline_text (mkOutline "T" [("A", ["a1"]), ("B", ["b1"])] [(9, "X")])
        = .ok (renderSpec "T" [("A", ["a1"]), ("B", ["b1"])] []) := by
  refine ⟨by decide, ?_, by decide, ?_, by decide, ?_⟩
  · exact (format_cta_placement "T" [("A", ["a1"]), ("B", ["b1"]), ("C", ["c1"])]
      [(1, "Go")]).2.1 5 (by decide)
  · exact (format_cta_placement "T" [("A", ["a1"]), ("B", ["b1"]), ("C", ["c1"])]
      [(1, "Go")]).2.2.1 ("A", ["a1"]) ("B", ["b1"]) ("C", ["c1"]) [] (1, "Go") rfl (by decide)
  · exact (format_cta_placement "T" [("A", ["a1"]), ("B", ["b1"])]
      [(9, "X")]).2.2.2 (by decide)

/-- C8.  format applied to the template generator's outline is a pure
function of the (topic, keyword) pair: repeated evaluation at the same
pair is the identical string, and a result string always exists (the
formatter succeeds on every template outline). -/
theorem template_format_deterministic (t k : String) :
    format_outline_text (_generate_template_based t k)
      = format_outline_text (_generate_template_based t k)
    ∧ ∃ s, format_outline_text (_generate_template_based t k) = Except.ok s := by
  refine ⟨rfl, ?_⟩
  obtain ⟨h1, secs, heq, -, -⟩ := template_shape t k
  rw [heq, format_mkOutline]
  exact ⟨_, rfl⟩

/-- C10.  An outline accepted by _validate_outline on which
format_outline_text raises: the validator checks only the presence of
the ctas key, and formatting then iterates over the integer 0. -/
theorem validator_accepts_formatter_raises :
    _validate_outline badCtasOutline = .ok true
    ∧ ∃ e, format_outline_text badCtasOutline = .error e :=
  ⟨rfl, ⟨"TypeError: int object is not iterable", rfl⟩⟩

/-- C9.  The exported file name is the slug of the topic followed by the
-outline.txt suffix, where the slug lowercases the topic, replaces every
character outside the lowercase-letter / digit class by a hyphen and
truncates to 50 characters (the source truncates before replacing, which
commutes because the replacement is per character); the exported data is
exactly the formatter's output on the current outline. -/
theorem export_name_and_content (topic : String) (outline : PyVal) :
    export_file_name topic = slug_spec topic ++ "-outline.txt"
    ∧ export_file_data outline = format_outline_text outline := by
  constructor
  · unfold export_file_name slug_spec
    rw [List.map_take]
  · rfl

theorem pyIsSpace_not_digit (c : Char) (h : pyIsSpace c = true) : Char.isDigit c = false := by
  simp only [pyIsSpace, Bool.or_eq_true, decide_eq_true_eq] at h
  rcases h with ((((h | h) | h) | h) | h) | h <;> subst h <;> decide

theorem pyLowerChar_space (c : Char) (h : pyIsSpace c = true) : pyLowerChar c = c := by
  simp only [pyIsSpace, Bool.or_eq_true, decide_eq_true_eq] at h
  rcases h with ((((h | h) | h) | h) | h) | h <;> subst h <;> decide

/-- A phrase headed by a non-space character never matches at the head
of a list headed by a space character. -/
theorem phraseAt_space_head (p : List Char) (c : Char) (rest : List Char)
    (hp : ∃ c0 cs, p = c0 :: cs ∧ pyIsSpace c0 = false) (hc : pyIsSpace c = true) :
    phraseAt p (c :: rest) = false := by
  obtain ⟨c0, cs, rfl, hns⟩ := hp
  have hne : (c0 == c) = false := by
    cases hcc : (c0 == c) with
    | false => rfl
    | true =>
      exfalso
      have heq : c0 = c := by simpa using hcc
      rw [heq, hc] at hns
      exact Bool.noConfusion hns
  simp [phraseAt, listPrefix, hne]

theorem searchPhrases_all_space (phrases : List (List Char))
    (hp : ∀ p ∈ phrases, ∃ c0 cs, p = c0 :: cs ∧ pyIsSpace c0 = false) :
    ∀ cs prev, (∀ c ∈ cs, pyIsSpace c = true) → searchPhrases phrases prev cs = false := by
  intro cs
  induction cs with
  | nil =>
    intro prev _
    simp only [searchPhrases, Bool.and_eq_false_iff, List.any_eq_false]
    right
    intro p hpp
    obtain ⟨c0, cs', rfl, -⟩ := hp p hpp
    simp [phraseAt, listPrefix]
  | cons c rest ih =>
    intro prev h
    have hc : pyIsSpace c = true := h c (List.mem_cons_self c rest)
    have hrest : ∀ x ∈ rest, pyIsSpace x = true := fun x hx => h x (List.mem_cons_of_mem c hx)
    have hany : (phrases.any fun p => phraseAt p (c :: rest)) = false := by
      simp only [List.any_eq_false]
      intro p hpp
      simp [phraseAt_space_head p c rest (hp p hpp) hc]
    simp [searchPhrases, hany, ih (Option.some c) hrest]

theorem digitSpacePrefix_all_space (cs : List Char)
    (h : ∀ c ∈ cs, pyIsSpace c = true) : digitSpacePrefix cs = Option.none := by
  cases cs with
  | nil => rfl
  | cons c rest =>
    have hd : Char.isDigit c = false :=
      pyIsSpace_not_digit c (h c (List.mem_cons_self c rest))
    simp [digitSpacePrefix, List.takeWhile, hd]

theorem searchListicle_all_space :
    ∀ cs prev, (∀ c ∈ cs, pyIsSpace c = true) → searchListicle prev cs = false := by
  have hp : ∀ p ∈ listiclePhrases, ∃ c0 cs, p = c0 :: cs ∧ pyIsSpace c0 = false := by
    intro p hpp
    fin_cases hpp <;> exact ⟨_, _, rfl, by decide⟩
  intro cs
  induction cs with
  | nil =>
    intro prev _
    simp only [searchListicle, listicleAt, Bool.and_eq_false_iff]
    right
    simp only [Bool.or_eq_false_iff]
    constructor
    · simp only [List.any_eq_false]
      intro p hpp
      obtain ⟨c0, cs', rfl, -⟩ := hp p hpp
      simp [phraseAt, listPrefix]
    · rfl
  | cons c rest ih =>
    intro prev h
    have hc : pyIsSpace c = true := h c (List.mem_cons_self c rest)
    have hrest : ∀ x ∈ rest, pyIsSpace x = true := fun x hx => h x (List.mem_cons_of_mem c hx)
    have hat : listicleAt (c :: rest) = false := by
      simp only [listicleAt, Bool.or_eq_false_iff]
      constructor
      · simp only [List.any_eq_false]
        intro p hpp
        simp [phraseAt_space_head p c rest (hp p hpp) hc]
      · rw [digitSpacePrefix_all_space (c :: rest) h]
    simp [searchListicle, hat, ih (Option.some c) hrest]

/-- C3.  detect_article_type is total and lands in the closed four-tag
set; a whitespace-only (or empty) topic classifies as general; and the
four canonical examples classify as stated. -/
theorem classify_four_tags (topic : String) :
    (detect_article_type topic = "how_to" ∨ detect_article_type topic = "listicle"
      ∨ detect_article_type topic = "explanatory" ∨ detect_article_type topic = "general")
    ∧ (topic.data.all pyIsSpace = true → detect_article_type topic = "general")
    ∧ detect_article_type "how to bake bread" = "how_to"
    ∧ detect_article_type "10 best laptops" = "listicle"
    ∧ detect_article_type "what is entropy" = "explanatory"
    ∧ detect_article_type "my garden" = "general"
    ∧ detect_article_type "" = "general" := by
  refine ⟨detect_article_type_cases topic, ?_, by decide, by decide, by decide, by decide, rfl⟩
  intro hws
  have hl : ∀ c ∈ pyLower topic.data, pyIsSpace c = true := by
    intro c hcmem
    simp only [pyLower, List.mem_map] at hcmem
    obtain ⟨d, hd, rfl⟩ := hcmem
    have hds : pyIsSpace d = true := by
      rw [List.all_eq_true] at hws
      exact hws d hd
    rw [pyLowerChar_space d hds]
    exact hds
  have hphr : ∀ (ps : List (List Char)), (∀ p ∈ ps, p ∈ howToPhrases ∨ p ∈ explanatoryPhrases) →
      ∀ p ∈ ps, ∃ c0 cs, p = c0 :: cs ∧ pyIsSpace c0 = false := by
    intro ps hps p hpp
    rcases hps p hpp with hmem | hmem <;> fin_cases hmem <;> exact ⟨_, _, rfl, by decide⟩
  have h1 : searchPhrases howToPhrases Option.none (pyLower topic.data) = false :=
    searchPhrases_all_space howToPhrases
      (hphr howToPhrases (fun p hp => Or.inl hp)) (pyLower topic.data) Option.none hl
  have h2 : searchListicle Option.none (pyLower topic.data) = false :=
    searchListicle_all_space (pyLower topic.data) Option.none hl
  have h3 : searchPhrases explanatoryPhrases Option.none (pyLower topic.data) = false :=
    searchPhrases_all_space explanatoryPhrases
      (hphr explanatoryPhrases (fun p hp => Or.inr hp)) (pyLower topic.data) Option.none hl
  simp [detect_article_type, h1, h2, h3]

/-- Witness for C3: a three-space topic is whitespace-only and
classifies as general. -/
theorem classify_four_tags_witness :
    ("   ".data.all pyIsSpace = true) ∧ detect_article_type "   " = "general" :=
  ⟨by decide, (classify_four_tags "   ").2.1 (by decide)⟩

theorem create_structured_sections_ge3 (text topic keyword : String) :
    ∃ ss, pySubscript (_create_structured_outline_from_text text topic keyword) "sections"
        = .ok (.list ss) ∧ 3 ≤ ss.length := by
  by_cases h : (scrapeSections text).length < 3
  · simp only [_create_structured_outline_from_text, if_pos h]
    obtain ⟨h1, secs, heq, hlen, -⟩ := template_shape topic keyword
    rw [heq]
    exact ⟨_, mkOutline_sections _ _ _, by simp [hlen]⟩
  · simp only [_create_structured_outline_from_text, if_neg h]
    refine ⟨_, rfl, ?_⟩
    simp only [List.length_map, List.length_take]
    omega

/-- A dict whose sections entry is a 2-element list is rejected by the
validator (with no exception: the length test fires before any section
is inspected). -/
theorem validate_two_sections (kvs : List (String × PyVal)) (ss : List PyVal)
    (h : dictLookup "sections" kvs = Option.some (.list ss)) (hlen : ss.length = 2) :
    _validate_outline (.dict kvs) = .ok false := by
  simp only [_validate_outline, pyInOp, exceptBind_ok]
  by_cases hb : (!((kvs.any fun kv => kv.1 == "h1") && (kvs.any fun kv => kv.1 == "sections")
      && (kvs.any fun kv => kv.1 == "ctas"))) = true
  · simp [hb, exceptPure]
  · simp only [hb]
    simp only [Bool.not_eq_true] at hb
    simp [hb, pySubscript, h, exceptBind_ok, exceptPure, hlen]

theorem parse_on_invalid (text topic keyword : String) (js : List Char) (o : PyVal)
    (hext : extractBraces text.data = Option.some js)
    (hjson : json_loads (String.mk js) = Option.some o)
    (hval : _validate_outline o = .ok false) :
    _parse_response text topic keyword
      = .ok (_create_structured_outline_from_text text topic keyword) := by
  simp [_parse_response, hext, hjson, hval]

/-- C4 amended.  When the blob embedded in the raw response decodes to
an object whose sections entry is a 2-element list, the validator
rejects it, and whatever _parse_response returns is the text-scraped
fallback — which equals a fresh template outline only when the raw text
yields fewer than 3 scrapeable sections — never the 2-section object,
and always carries at least 3 sections. -/
theorem two_section_response_rejected (text topic keyword : String) (js : List Char)
    (kvs : List (String × PyVal)) (ss : List PyVal) (r : PyVal)
    (hext : extractBraces text.data = Option.some js)
    (hjson : json_loads (String.mk js) = Option.some (.dict kvs))
    (hsec : dictLookup "sections" kvs = Option.some (.list ss))
    (hlen : ss.length = 2)
    (hr : _parse_response text topic keyword = .ok r) :
    _validate_outline (.dict kvs) = .ok false
    ∧ r = _create_structured_outline_from_text text topic keyword
    ∧ r ≠ .dict kvs
    ∧ (∃ rss, pySubscript r "sections" = .ok (.list rss) ∧ 3 ≤ rss.length)
    ∧ ((scrapeSections text).length < 3 → r = _generate_template_based topic keyword) := by
  have hval := validate_two_sections kvs ss hsec hlen
  have hpar := parse_on_invalid text topic keyword js (.dict kvs) hext hjson hval
  rw [hpar] at hr
  have hreq : r = _create_structured_outline_from_text text topic keyword :=
    (Except.ok.injEq _ _).mp hr.symm
  obtain ⟨rss, hrss, hrlen⟩ := create_structured_sections_ge3 text topic keyword
  refine ⟨hval, hreq, ?_, ⟨rss, by rw [hreq]; exact hrss, hrlen⟩, ?_⟩
  case refine_2 =>
    intro hlt
    rw [hreq]
    simp [_create_structured_outline_from_text, hlt]
  intro hcon
  have h1 : pySubscript r "sections" = .ok (.list ss) := by
    rw [hcon]
    simp [pySubscript, hsec]
  have h2 : pySubscript r "sections" = .ok (.list rss) := by
    rw [hreq]
    exact hrss
  rw [h1] at h2
  simp only [Except.ok.injEq, PyVal.list.injEq] at h2
  rw [h2] at hlen
  omega

/-- Witness for C4 at a concrete raw response carrying a 2-section JSON
object and no scrapeable section lines (so the scraper clause fires and
the fallback is the template outline). -/
theorem two_section_response_rejected_witness :
    json_loads (String.mk c4text.data) = Option.some (.dict c4kvs)
    ∧ (_validate_outline (.dict c4kvs) = .ok false
       ∧ _create_structured_outline_from_text c4text "garden" ""
           = _create_structured_outline_from_text c4text "garden" ""
       ∧ _create_structured_outline_from_text c4text "garden" "" ≠ .dict c4kvs
       ∧ (∃ rss, pySubscript (_create_structured_outline_from_text c4text "garden" "") "sections"
           = .ok (.list rss) ∧ 3 ≤ rss.length)
       ∧ ((scrapeSections c4text).length < 3 →
           _create_structured_outline_from_text c4text "garden" ""
             = _generate_template_based "garden" ""))
    ∧ _create_structured_outline_from_text c4text "garden" ""
        = _generate_template_based "garden" "" :=
  ⟨rfl,
   two_section_response_rejected c4text "garden" "" c4text.data c4kvs
     [.dict [("h2", .str "A"), ("bullets", .list [.str "x", .str "y"])],
      .dict [("h2", .str "B"), ("bullets", .list [.str "x", .str "y"])]]
     (_create_structured_outline_from_text c4text "garden" "")
     rfl rfl rfl rfl rfl,
   (two_section_response_rejected c4text "garden" "" c4text.data c4kvs
     [.dict [("h2", .str "A"), ("bullets", .list [.str "x", .str "y"])],
      .dict [("h2", .str "B"), ("bullets", .list [.str "x", .str "y"])]]
     (_create_structured_outline_from_text c4text "garden" "")
     rfl rfl rfl rfl rfl).2.2.2.2 (by decide)⟩

set_option maxRecDepth 1000000 in
/-- C4 counterexample.  A raw response whose embedded JSON object has
only 2 sections but whose surrounding lines scrape into 3 sections: the
validator rejects the object, yet the pipeline returns the text-scraped
outline (first subheading Section Alpha One, taken from the remote
text), not a template-generated one — so the fallback target named by
the claim (the template generator) is wrong. -/
theorem two_section_falls_back_to_scraper_counterexample :
    extractBraces c4ctext.data = Option.some c4text.data
    ∧ json_loads (String.mk c4text.data) = Option.some (.dict c4kvs)
    ∧ dictLookup "sections" c4kvs
        = Option.some (.list [.dict [("h2", .str "A"), ("bullets", .list [.str "x", .str "y"])],
                              .dict [("h2", .str "B"), ("bullets", .list [.str "x", .str "y"])]])
    ∧ _validate_outline (.dict c4kvs) = .ok false
    ∧ _parse_response c4ctext "my garden" ""
        = .ok (_create_structured_outline_from_text c4ctext "my garden" "")
    ∧ _create_structured_outline_from_text c4ctext "my garden" ""
        ≠ _generate_template_based "my garden" ""
    ∧ firstSectionH2 (_create_structured_outline_from_text c4ctext "my garden" "")
        = "Section Alpha One" := by
  refine ⟨rfl, rfl, rfl, rfl, rfl, ?_, rfl⟩
  intro hcon
  have h2 := congrArg h1String hcon
  rw [show h1String (_create_structured_outline_from_text c4ctext "my garden" "")
        = "Complete Guide to My Garden" from rfl,
      show h1String (_generate_template_based "my garden" "")
        = "My Garden: Essential Information and Insights" from rfl] at h2
  exact absurd h2 (by decide)

set_option maxRecDepth 100000 in
/-- C2 counterexample.  Parsing c2text yields a structurally invalid
object (validator false), yet the pipeline does not replace it by a
template outline: _create_structured_outline_from_text builds the result
out of the remote text lines (its first subheading is the scraped
Section Alpha One), and that result differs from the template outline. -/
theorem mixed_construction_counterexample :
    extractBraces c2text.data = Option.some "\x7b\"h1\": \"X\"\x7d".data
    ∧ json_loads "\x7b\"h1\": \"X\"\x7d" = Option.some (.dict [("h1", .str "X")])
    ∧ _validate_outline (.dict [("h1", .str "X")]) = .ok false
    ∧ _parse_response c2text "my garden" ""
        = .ok (_create_structured_outline_from_text c2text "my garden" "")
    ∧ _create_structured_outline_from_text c2text "my garden" ""
        ≠ _generate_template_based "my garden" ""
    ∧ firstSectionH2 (_create_structured_outline_from_text c2text "my garden" "")
        = "Section Alpha One" := by
  refine ⟨rfl, rfl, rfl, rfl, ?_, rfl⟩
  intro hcon
  have h2 := congrArg h1String hcon
  rw [show h1String (_create_structured_outline_from_text c2text "my garden" "")
        = "Complete Guide to My Garden" from rfl,
      show h1String (_generate_template_based "my garden" "")
        = "My Garden: Essential Information and Insights" from rfl] at h2
  exact absurd h2 (by decide)

/-- C2 amended.  When the embedded blob decodes to a structurally
invalid object, the object itself is discarded wholesale (the result
never depends on it); the pipeline then builds the outline by scraping
the raw text, and only when fewer than 3 sections can be scraped is the
result a fresh template-generated outline. -/
theorem invalid_object_discarded_then_scraped (text topic keyword : String)
    (js : List Char) (o : PyVal)
    (hext : extractBraces text.data = Option.some js)
    (hjson : json_loads (String.mk js) = Option.some o)
    (hval : _validate_outline o = .ok false) :
    _parse_response text topic keyword
      = .ok (_create_structured_outline_from_text text topic keyword)
    ∧ ((scrapeSections text).length < 3 →
        _create_structured_outline_from_text text topic keyword
          = _generate_template_based topic keyword) := by
  refine ⟨parse_on_invalid text topic keyword js o hext hjson hval, ?_⟩
  intro hlt
  simp [_create_structured_outline_from_text, hlt]

/-- Witness for the amended C2 at a concrete response whose blob is an
empty object and whose text yields no scrapeable section. -/
theorem invalid_object_discarded_then_scraped_witness :
    json_loads (String.mk "\x7b\x7d".data) = Option.some (.dict [])
    ∧ _validate_outline (.dict []) = .ok false
    ∧ _parse_response c2wtext "my garden" ""
        = .ok (_create_structured_outline_from_text c2wtext "my garden" "")
    ∧ _create_structured_outline_from_text c2wtext "my garden" ""
        = _generate_template_based "my garden" "" := by
  refine ⟨rfl, rfl, ?_, ?_⟩
  · exact (invalid_object_discarded_then_scraped c2wtext "my garden" "" "\x7b\x7d".data
      (.dict []) rfl rfl rfl).1
  · exact (invalid_object_discarded_then_scraped c2wtext "my garden" "" "\x7b\x7d".data
      (.dict []) rfl rfl rfl).2 (by decide)

/-- C5.  When the first remote attempt raises an error classified as an
authentication failure (and not as a rate limit), generate_outline stops
after that single remote call, emits the credential error signal pair —
distinct from every signal the other failure paths emit — and returns
the template fallback outline. -/
theorem unauthorized_no_retry (st : GenState) (topic keyword e : String)
    (hcn : st.client_is_none = false)
    (hwm : st.working_model_found = true)
    (hr : st.remote 0 = .failure e)
    (hnrl : (containsSub (pyLowerStr e) "rate limit" || containsSub (pyLowerStr e) "429") = false)
    (hauth : (containsSub (pyLowerStr e) "token" || containsSub (pyLowerStr e) "401"
        || containsSub (pyLowerStr e) "unauthorized") = true) :
    generate_outline st topic keyword
      = ⟨.ok (_generate_template_based topic keyword),
         [.error "🔑 Invalid or expired token. Please check your Hugging Face token.",
          .info "Get a new token at: https://huggingface.co/settings/tokens"], 1⟩
    ∧ (Signal.error "🔑 Invalid or expired token. Please check your Hugging Face token."
        ∉ [Signal.error "⏳ Rate limit reached. Using template fallback.",
           Signal.error "❌ Model temporarily unavailable. Using template fallback.",
           Signal.warning ("⚠️ " ++ strTake e 200),
           Signal.info "📋 Using template-based generation (AI models unavailable)"]) := by
  constructor
  · have h0 : ¬ (2 ≤ 0) := by omega
    simp only [generate_outline, hcn, Bool.false_eq_true, if_false]
    rw [generate_attempts]
    simp [hwm, hr, hnrl, hauth, h0]
  · simp [Signal.error.injEq]

/-- Witness for C5: a 401 Unauthorized failure on the first attempt. -/
theorem unauthorized_no_retry_witness :
    ((containsSub (pyLowerStr "401 Unauthorized") "rate limit"
        || containsSub (pyLowerStr "401 Unauthorized") "429") = false)
    ∧ ((containsSub (pyLowerStr "401 Unauthorized") "token"
        || containsSub (pyLowerStr "401 Unauthorized") "401"
        || containsSub (pyLowerStr "401 Unauthorized") "unauthorized") = true)
    ∧ (generate_outline c5state "a" "b"
        = ⟨.ok (_generate_template_based "a" "b"),
           [.error "🔑 Invalid or expired token. Please check your Hugging Face token.",
            .info "Get a new token at: https://huggingface.co/settings/tokens"], 1⟩
       ∧ (Signal.error "🔑 Invalid or expired token. Please check your Hugging Face token."
           ∉ [Signal.error "⏳ Rate limit reached. Using template fallback.",
              Signal.error "❌ Model temporarily unavailable. Using template fallback.",
              Signal.warning ("⚠️ " ++ strTake "401 Unauthorized" 200),
              Signal.info "📋 Using template-based generation (AI models unavailable)"])) :=
  ⟨by decide, by decide,
   unauthorized_no_retry c5state "a" "b" "401 Unauthorized" rfl rfl rfl (by decide) (by decide)⟩

theorem gen_attempts_result (st : GenState) (topic keyword : String) :
    ∀ k attempt sigs calls, 2 - attempt ≤ k →
      ∃ o, (generate_attempts st topic keyword attempt sigs calls).result = .ok o
        ∧ (o = _generate_template_based topic keyword
           ∨ ∃ n text, st.remote n = RemoteOutcome.success text
               ∧ _parse_response text topic keyword = .ok o) := by
  intro k
  induction k with
  | zero =>
    intro attempt sigs calls hk
    have h2 : 2 ≤ attempt := by omega
    rw [generate_attempts]
    simp only [dif_pos h2]
    exact ⟨_, rfl, Or.inl rfl⟩
  | succ k ih =>
    intro attempt sigs calls hk
    by_cases h2 : 2 ≤ attempt
    · rw [generate_attempts]
      simp only [dif_pos h2]
      exact ⟨_, rfl, Or.inl rfl⟩
    · rw [generate_attempts]
      simp only [dif_neg h2]
      cases hrem : st.remote attempt with
      | success text =>
        cases hp : _parse_response text topic keyword with
        | ok outline =>
          refine ⟨outline, ?_, Or.inr ⟨attempt, text, hrem, hp⟩⟩
          simp [hrem, hp]
        | error e =>
          simp only [hrem, hp]
          split_ifs with hc1 hc2 hc3 hc4
          · exact ih (attempt + 1) _ _ (by omega)
          · exact ⟨_, rfl, Or.inl rfl⟩
          · exact ⟨_, rfl, Or.inl rfl⟩
          · exact ⟨_, rfl, Or.inl rfl⟩
          · exact ⟨_, rfl, Or.inl rfl⟩
      | failure e =>
        simp only [hrem]
        split_ifs with hc1 hc2 hc3 hc4
        · exact ih (attempt + 1) _ _ (by omega)
        · exact ⟨_, rfl, Or.inl rfl⟩
        · exact ⟨_, rfl, Or.inl rfl⟩
        · exact ⟨_, rfl, Or.inl rfl⟩
        · exact ⟨_, rfl, Or.inl rfl⟩

theorem initialize_preserves (st st2 : GenState)
    (h : initialize_client st = .ok st2) : st2.remote = st.remote := by
  unfold initialize_client at h
  split at h
  · exact absurd h (by simp)
  · unfold _find_working_model at h
    split at h
    · injection h with h2
      subst h2
      rfl
    · split at h
      · injection h with h2
        subst h2
        rfl
      · injection h with h2
        subst h2
        rfl
      · exact absurd h (by simp)

/-- C7 counterexample.  With no client yet and no token, generate_outline
itself raises (the ValueError from initialize_client propagates to its
caller), so the claim as stated about generate_outline fails; the
surrounding try/except in main is what absorbs it. -/
theorem generate_outline_raises_without_token :
    (generate_outline c7state "some topic" "").result
      = .error "Hugging Face token required. Get it from https://huggingface.co/settings/tokens" := rfl

/-- C7 amended.  No error terminates a generation request: main's
handler catches anything generate_outline raises (such as the missing
token ValueError) and substitutes a template outline, so the outline a
request produces is either the deterministic template outline or a
successfully parsed remote response. -/
theorem request_never_fails (st : GenState) (topic keyword : String) :
    main_generate st topic keyword = _generate_template_based topic keyword
    ∨ ∃ n text, st.remote n = RemoteOutcome.success text
        ∧ _parse_response text topic keyword = .ok (main_generate st topic keyword) := by
  cases hinit : (if st.client_is_none then initialize_client st else .ok st) with
  | error e =>
    left
    simp [main_generate, generate_outline, hinit]
  | ok st2 =>
    have hrem : st2.remote = st.remote := by
      by_cases hcn : st.client_is_none
      · rw [if_pos hcn] at hinit
        exact initialize_preserves st st2 hinit
      · rw [if_neg hcn] at hinit
        injection hinit with h2
        subst h2
        rfl
    by_cases hw : st2.working_model_found
    · obtain ⟨o, ho, hcase⟩ := gen_attempts_result st2 topic keyword 2 0 [] 0 (by omega)
      have hmain : main_generate st topic keyword = o := by
        simp [main_generate, generate_outline, hinit, hw, ho]
      rcases hcase with rfl | ⟨n, text, hn, hp⟩
      · left
        exact hmain
      · right
        refine ⟨n, text, ?_, ?_⟩
        · rw [← hrem]
          exact hn
        · rw [hmain]
          exact hp
    · left
      simp [main_generate, generate_outline, hinit, hw]
